import Mathlib

/-!
A shallow embedding of the primer-pair evaluation engine of `camplicon.py`
(classes `Primer`, `Primer_hit`, `Primer_pair`, `PCR_Product` and the functions
`generate_product`, `list_entropy`, `score_primer_pair` and the scoring/ranking
part of `generate_products_and_score`), together with theorems about the
embedded functions.

Modelling notes.

* Python floats are idealised as real numbers (`ℝ`); `np.log2`, `np.sqrt`,
  `np.mean` and `np.std` (population standard deviation, `ddof=0`) become the
  corresponding real-valued operations.

* `PCR_Product` defines `__slots__`, `__init__`, `__repr__`, `__str__` and
  `__len__` but neither `__eq__` nor `__hash__`, so Python's `set(...)`,
  `list.count(...)` and `... in list` on `PCR_Product` values compare by
  object identity.  A product object in the embedding is therefore a `PyObj`:
  a `PCR_Product` value together with the identity (`oid`) of the object that
  carries it.  `pySet`, `pyCount` and `pyMem` model `set`, `count` and `in`
  with identity-based equality, exactly as Python executes them here.

* `generate_product` returns `None` for a non-viable (pair, genome)
  combination, so the per-genome product lists handed to `score_primer_pair`
  are `List (Option PyObj)`.  Python evaluates `product.seq` on every element
  of such a list; on a `None` element this raises `AttributeError`.  The
  embedded scorer therefore returns `Option`, with `none` modelling the
  raised exception, and `good_products_py` / `good_bg_products_py` model the
  two filtering list comprehensions including that failure mode.

* Python string slicing `s[a:b]` (clamping, negative-index wrap-around) is
  modelled by `pySlice`.

* The genome dictionary produced by `read_genome` is modelled as a total map
  from contig id to its record: in the pipeline every hit's target contig
  comes from aligning against that same genome file, so lookups never fail.

* `sorted(..., key=..., reverse=True)` is a stable comparison sort; it is
  modelled by `List.insertionSort` over the descending lexicographic order on
  the Python key tuple `(nhits, nseq, info, -penalty)`.

* The per-genome product dictionaries built by `generate_products_from_genome`
  (which performs file I/O and invokes the external aligner) are taken as
  inputs of the embedded `generate_products_and_score`, as maps from pair id
  to the product attempt for that pair.  `sys.exit(1)` and an uncaught
  `AttributeError` are the two abnormal outcomes, modelled by `Except PyError`.
-/

/-- Embeds class `Primer` (id, sequence, melting temperature). -/
structure Primer where
  id : String
  seq : String
  melt : ℝ

/-- Embeds class `Primer_hit` (primer id, target contig, strand, 1-based
position, edit distance). -/
structure Primer_hit where
  primer_id : String
  target : String
  strand : Int
  pos : Int
  edist : Int
deriving DecidableEq

/-- Embeds class `Primer_pair`: two primers plus the statistics populated by
Primer3 (`penalty`) and by `score_primer_pair`. -/
structure Primer_pair where
  pair_id : String
  left : Primer
  right : Primer
  locale : String
  penalty : ℝ
  nhits : ℕ
  length : ℝ
  se : ℝ
  nseq : ℕ
  info : ℝ
  offhits : ℕ
  offseqs : ℕ
  overlap : ℕ

/-- Embeds class `PCR_Product` (template contig id, product sequence, start
and end coordinates).  `len(product)` in the source is `len(product.seq)`. -/
structure PCR_Product where
  template : String
  seq : String
  start : Int
  «end» : Int
deriving DecidableEq

/-- A `PCR_Product` object at runtime: the stored value together with the
object identity `oid`.  `PCR_Product` defines no `__eq__`/`__hash__`, so all
of `set`, `count` and `in` in the scorer compare objects by identity; each
call of `generate_product` creates a fresh object, hence a fresh `oid`. -/
structure PyObj where
  oid : ℕ
  val : PCR_Product
deriving DecidableEq

/-- One record of the genome dictionary built by `read_genome` (Biopython
`SeqRecord`, restricted to the fields `id` and `seq` the core reads). -/
structure GenomeRecord where
  id : String
  seq : String
deriving DecidableEq

/-- Python `x in l` for a list `l` of `PCR_Product` objects: identity-based
membership. -/
def pyMem (x : PyObj) (l : List PyObj) : Bool :=
  l.any fun y => y.oid == x.oid

/-- Python `set(l)` for a list `l` of `PCR_Product` objects: deduplication by
object identity.  Only its cardinality and which identities survive matter to
the scorer. -/
def pySet : List PyObj → List PyObj
  | [] => []
  | x :: xs =>
    let s := pySet xs
    if pyMem x s then s else x :: s

/-- Python `l.count(x)` for a list `l` of `PCR_Product` objects:
identity-based occurrence count. -/
def pyCount (l : List PyObj) (x : PyObj) : ℕ :=
  (l.filter fun y => y.oid == x.oid).length

/-- Python string slicing `s[a:b]`: negative indices wrap around, both bounds
are clamped to `[0, len(s)]`. -/
def pySlice (s : String) (a b : Int) : String :=
  let n : Int := s.length
  let lo : Int := if a < 0 then max (n + a) 0 else min a n
  let hi : Int := if b < 0 then max (n + b) 0 else min b n
  String.mk ((s.data.drop lo.toNat).take (hi.toNat - lo.toNat))

/-- The product built at lines 264/266 of `camplicon.py` once both hits are
known: it spans from the lower hit position to the higher position plus the
primer length, and its sequence is the corresponding genomic substring. -/
def implied_product (lhit rhit : Primer_hit) (genome : String → GenomeRecord)
    (primer_len : Int) : PCR_Product :=
  if lhit.pos < rhit.pos then
    ⟨(genome lhit.target).id,
      pySlice (genome lhit.target).seq (lhit.pos - 1) (rhit.pos + primer_len - 1),
      lhit.pos, rhit.pos + primer_len⟩
  else
    ⟨(genome lhit.target).id,
      pySlice (genome rhit.target).seq (rhit.pos - 1) (lhit.pos + primer_len - 1),
      rhit.pos, lhit.pos + primer_len⟩

/-- Embeds `generate_product`: `none` models Python `None` ("no product").
The checks, in source order: a missing hit for either primer, equal strand
values, different target contigs, and a materialised product sequence longer
than 10000 characters. -/
def generate_product (primer_pair : Primer_pair)
    (primer_hits : String → Option Primer_hit)
    (genome : String → GenomeRecord) (primer_len : Int) : Option PCR_Product :=
  match primer_hits primer_pair.left.id with
  | none => none
  | some lhit =>
    match primer_hits primer_pair.right.id with
    | none => none
    | some rhit =>
      if lhit.strand == rhit.strand then none
      else if lhit.target == rhit.target then
        let product := implied_product lhit rhit genome primer_len
        if 10000 < product.seq.length then none else some product
      else none

/-- The qualifying condition of the foreground filter in `score_primer_pair`:
`(product.seq != "") and (max_length > len(product) > min_length)`. -/
def good_product (min_length max_length : Int) (p : PyObj) : Bool :=
  (p.val.seq != "") && decide ((p.val.seq.length : Int) < max_length)
    && decide (min_length < (p.val.seq.length : Int))

/-- The foreground list comprehension of `score_primer_pair`.
`none` models the `AttributeError` raised by `product.seq` when the product
list contains a `None` attempt. -/
def good_products_py (min_length max_length : Int) :
    List (Option PyObj) → Option (List PyObj)
  | [] => some []
  | none :: _ => none
  | some p :: rest =>
    match good_products_py min_length max_length rest with
    | none => none
    | some gs => some (if good_product min_length max_length p then p :: gs else gs)

/-- The background list comprehension of `score_primer_pair`:
`(product.seq != "") and (max_length > len(product))` — only the upper length
bound is applied.  `none` models the `AttributeError` on a `None` attempt. -/
def good_bg_products_py (max_length : Int) :
    List (Option PyObj) → Option (List PyObj)
  | [] => some []
  | none :: _ => none
  | some p :: rest =>
    match good_bg_products_py max_length rest with
    | none => none
    | some gs =>
      some (if (p.val.seq != "") && decide ((p.val.seq.length : Int) < max_length)
        then p :: gs else gs)

/-- Embeds `list_entropy`: Shannon entropy in bits over the frequency of each
element of `set(l)` in `l`.  Because `set` and `count` compare `PCR_Product`
objects by identity, each distinct object is its own class. -/
noncomputable def list_entropy (l : List PyObj) : ℝ :=
  ((pySet l).map fun x =>
    -((pyCount l x : ℝ) / (l.length : ℝ)
        * Real.logb 2 ((pyCount l x : ℝ) / (l.length : ℝ)))).sum

/-- `np.mean` of a list of lengths. -/
noncomputable def np_mean (l : List ℕ) : ℝ :=
  (l.map fun x => (x : ℝ)).sum / (l.length : ℝ)

/-- `np.std` of a list of lengths (population standard deviation). -/
noncomputable def np_std (l : List ℕ) : ℝ :=
  Real.sqrt ((l.map fun x => ((x : ℝ) - np_mean l) ^ 2).sum / (l.length : ℝ))

/-- The field updates `score_primer_pair` performs once both filtered lists
are available.  When `nhits = 0` the fields `length`, `se` and `info` keep
their previous values, as the guarded assignments do in the source. -/
noncomputable def score_with (primer_pair : Primer_pair)
    (good_products good_bg_products : List PyObj) : Primer_pair :=
  let lens := good_products.map fun p => p.val.seq.length
  { primer_pair with
    nhits := good_products.length
    nseq := (pySet good_products).length
    length := if 0 < good_products.length then np_mean lens else primer_pair.length
    se := if 0 < good_products.length
      then np_std lens / Real.sqrt (good_products.length : ℝ) else primer_pair.se
    info := if 0 < good_products.length
      then list_entropy good_products else primer_pair.info
    offhits := good_bg_products.length
    offseqs := (pySet good_bg_products).length
    overlap := ((pySet good_bg_products).filter fun b => pyMem b good_products).length }

/-- Embeds `score_primer_pair` on the product attempts of one pair: filter the
foreground attempts, filter the background attempts, update the statistics.
`none` models the `AttributeError` raised when either list contains a `None`
attempt. -/
noncomputable def score_primer_pair (primer_pair : Primer_pair)
    (products bg_products : List (Option PyObj)) (min_length max_length : Int) :
    Option Primer_pair :=
  match good_products_py min_length max_length products with
  | none => none
  | some good_products =>
    match good_bg_products_py max_length bg_products with
    | none => none
    | some good_bg_products => some (score_with primer_pair good_products good_bg_products)

/-- The Python sort key tuple `(nhits, nseq, info, -penalty)`, compared
lexicographically as Python compares tuples. -/
def rank_key (p : Primer_pair) : ℕ ×ₗ (ℕ ×ₗ (ℝ ×ₗ ℝ)) :=
  toLex (p.nhits, toLex (p.nseq, toLex (p.info, -p.penalty)))

/-- `a` may precede `b` in the descending ranking: the key of `b` is at most
the key of `a`. -/
def pair_ge (a b : Primer_pair) : Prop :=
  rank_key b ≤ rank_key a

noncomputable instance : DecidableRel pair_ge :=
  fun a b => inferInstanceAs (Decidable (rank_key b ≤ rank_key a))

instance : IsTotal Primer_pair pair_ge :=
  ⟨fun a b => le_total (rank_key b) (rank_key a)⟩

instance : IsTrans Primer_pair pair_ge :=
  ⟨fun _ _ _ hab hbc => le_trans hbc hab⟩

/-- Embeds lines 377-378 of `camplicon.py` (the Ranker): keep the pairs with
`nhits > 0` and sort them descending by `(nhits, nseq, info, -penalty)` with a
stable comparison sort. -/
noncomputable def rank_pairs (primer_pairs : List Primer_pair) : List Primer_pair :=
  List.insertionSort pair_ge (primer_pairs.filter fun p => decide (0 < p.nhits))

/-- The two abnormal outcomes of the scoring stage: `sys.exit(1)` with its
diagnostic message, and an uncaught `AttributeError`. -/
inductive PyError where
  | exitFailure (code : ℕ) (message : String)
  | attributeError
deriving DecidableEq

/-- The value returned by `generate_products_and_score` on a normal run: the
ranked pairs and the rearranged foreground/background product attempts,
indexed by pair id. -/
structure GPSOutput where
  pairs : List Primer_pair
  fg_products : String → List (Option PyObj)
  bg_products : String → List (Option PyObj)

/-- The scoring loop of `generate_products_and_score`: one
`score_primer_pair` call per pair, aborting at the first raised
`AttributeError`. -/
noncomputable def score_all (fg bg : String → List (Option PyObj))
    (min_length max_length : Int) : List Primer_pair → Option (List Primer_pair)
  | [] => some []
  | pp :: rest =>
    match score_primer_pair pp (fg pp.pair_id) (bg pp.pair_id) min_length max_length with
    | none => none
    | some r =>
      match score_all fg bg min_length max_length rest with
      | none => none
      | some rs => some (r :: rs)

/-- Embeds the scoring part of `generate_products_and_score` (lines 358-380).
Its inputs are the per-genome product dictionaries computed by
`generate_products_from_genome` (one map per genome from pair id to the
product attempt for that pair; their construction performs file I/O and runs
the external aligner and is outside the embedded core).  If no attempt at all
produced a product, the run exits with status 1 and a diagnostic message;
otherwise the attempts are rearranged per pair, scored, filtered and sorted. -/
noncomputable def generate_products_and_score (primer_pairs : List Primer_pair)
    (fg_genomes bg_genomes : List (String → Option PyObj))
    (min_length max_length : Int) : Except PyError GPSOutput :=
  let all_fg : List (Option PyObj) :=
    fg_genomes.flatMap fun d => primer_pairs.map fun pp => d pp.pair_id
  if (all_fg.filterMap id).length == 0 then
    Except.error (PyError.exitFailure 1
      "There are no viable foreground PCR products. Quitting.\n")
  else
    let fg : String → List (Option PyObj) := fun pair_id => fg_genomes.map fun d => d pair_id
    let bg : String → List (Option PyObj) := fun pair_id => bg_genomes.map fun d => d pair_id
    match score_all fg bg min_length max_length primer_pairs with
    | none => Except.error PyError.attributeError
    | some scored => Except.ok ⟨rank_pairs scored, fg, bg⟩

/-- The number of distinct sequences among a list of products, distinctness
being exact string equality.  This follows the specification's words ("count
of distinct sequences among them, exact string equality"); it is what the
specification says `nseq`/`offseqs` count, to be compared with what the code
computes. -/
def spec_distinct_seq_count (l : List PyObj) : ℕ :=
  (l.map fun p => p.val.seq).dedup.length

/-- A concrete primer pair with unset (`-1`) penalty and melting temperatures,
as produced by `generate_primer_pairs`. -/
noncomputable def pp0 : Primer_pair :=
  ⟨"0", ⟨"0", "ACG", -1⟩, ⟨"1", "CGT", -1⟩, "-", -1, 0, 0, 0, 0, 0, 0, 0, 0⟩

/-- A qualifying foreground product object (length 4, sequence "ACGT"). -/
def o1 : PyObj := ⟨0, ⟨"g1", "ACGT", 1, 5⟩⟩

/-- A second, distinct product object carrying the same sequence "ACGT". -/
def o2 : PyObj := ⟨1, ⟨"g2", "ACGT", 1, 5⟩⟩

/-- A background product object of length 2 (sequence "AC"). -/
def b1 : PyObj := ⟨2, ⟨"h1", "AC", 3, 5⟩⟩

/-- A second, distinct background product object with the same sequence "AC". -/
def b2 : PyObj := ⟨3, ⟨"h2", "AC", 7, 9⟩⟩

/-- A hit for the left primer of `pp0`: contig "c1", strand -1, position 2. -/
def lhW : Primer_hit := ⟨"0", "c1", -1, 2, 0⟩

/-- A hit for the right primer of `pp0`: contig "c1", strand 1, position 5. -/
def rhW : Primer_hit := ⟨"1", "c1", 1, 5, 0⟩

/-- A hit mapping assigning `lhW` to the left primer and `rhW` to the right. -/
def hA : String → Option Primer_hit :=
  fun pid => if pid == "0" then some lhW else if pid == "1" then some rhW else none

/-- The swapped hit mapping: the left primer gets `rhW`, the right gets `lhW`. -/
def hB : String → Option Primer_hit :=
  fun pid => if pid == "0" then some rhW else if pid == "1" then some lhW else none

/-- A one-contig genome: "c1" with sequence "ACGTACGTAC" (length 10). -/
def gW : String → GenomeRecord := fun _ => ⟨"c1", "ACGTACGTAC"⟩

/-- The product the hits `lhW`, `rhW` imply on `gW` with primer length 3. -/
def prodW : PCR_Product := ⟨"c1", "CGTACG", 2, 8⟩

/-- A non-`None` foreground product attempt whose product (length 2) fails
the qualifying length filter for `min_length = 300`. -/
def obj_cx : PyObj := ⟨7, ⟨"t1", "AC", 1, 4⟩⟩

/-- A per-genome product dictionary giving pair "0" the attempt `obj_cx`. -/
def d_cx : String → Option PyObj :=
  fun pid => if pid == "0" then some obj_cx else none

/-- With two distinct product objects carrying the same sequence, the code's
entropy is `log2 2 = 1` bit: `set` and `count` compare by object identity, so
each object forms its own frequency class of weight `1/2`. -/
theorem list_entropy_two_identical_seqs : list_entropy [o1, o2] = 1 := by
  have h : list_entropy [o1, o2] =
      -((1 : ℝ) / 2 * Real.logb 2 ((1 : ℝ) / 2))
        + (-((1 : ℝ) / 2 * Real.logb 2 ((1 : ℝ) / 2)) + 0) := by
    simp only [list_entropy]
    norm_num [pySet, pyMem, pyCount, o1, o2]
  rw [h, one_div, Real.logb_inv, Real.logb_self_eq_one one_lt_two]
  norm_num

/-- Claim C1: with two qualifying foreground products that are distinct
objects carrying the identical sequence "ACGT", `score_primer_pair` sets
`nhits = 2` and also `nseq = 2`, although the number of distinct sequences
among the qualifying products (exact string equality, as the claim counts
them) is 1: Python's `set` deduplicates `PCR_Product` objects by identity,
not by sequence. -/
theorem C1_nseq_object_identity :
    (score_primer_pair pp0 [some o1, some o2] [] 1 500).map (fun r => (r.nhits, r.nseq))
        = some (2, 2)
      ∧ o1.val.seq = o2.val.seq ∧ spec_distinct_seq_count [o1, o2] = 1 :=
  ⟨rfl, rfl, by decide⟩

/-- Claim C2: with the same two qualifying foreground products of identical
sequence, the code's `info` is `1` bit, not `0` as the claimed entropy over
distinct sequences would be: `list_entropy` counts each product object as its
own class. -/
theorem C2_info_object_identity :
    (score_primer_pair pp0 [some o1, some o2] [] 1 500).map Primer_pair.info = some 1
      ∧ o1.val.seq = o2.val.seq ∧ (1 : ℝ) ≠ 0 := by
  refine ⟨?_, rfl, one_ne_zero⟩
  have h : (score_primer_pair pp0 [some o1, some o2] [] 1 500).map Primer_pair.info
      = some (list_entropy [o1, o2]) := rfl
  rw [h, list_entropy_two_identical_seqs]

/-- Claim C3: when one foreground genome yields no product (a `None` attempt
in the product list), `score_primer_pair` does not succeed: evaluating
`product.seq` on `None` raises `AttributeError` (the `none` result).  With
the `None` attempt removed the same call succeeds with `nhits = 1`. -/
theorem C3_none_crash :
    score_primer_pair pp0 [some o1, none] [] 1 500 = none
      ∧ ∃ r, score_primer_pair pp0 [some o1] [] 1 500 = some r ∧ r.nhits = 1 :=
  ⟨rfl, _, rfl, rfl⟩

/-- Claim C6: with two distinct background product objects carrying the same
sequence "AC" (length 2), the code sets `offhits = 2` — confirming that only
the upper length bound applies, since 2 is far below the foreground minimum
300 — but also `offseqs = 2`, although the distinct-sequence count is 1:
`set` deduplicates background products by object identity as well. -/
theorem C6_offseqs_object_identity :
    (score_primer_pair pp0 [] [some b1, some b2] 300 500).map (fun r => (r.offhits, r.offseqs))
        = some (2, 2)
      ∧ b1.val.seq = b2.val.seq
      ∧ (b1.val.seq.length : Int) < 300
      ∧ spec_distinct_seq_count [b1, b2] = 1 :=
  ⟨rfl, rfl, by decide, by decide⟩

/-- `pyMem` membership unfolded: some element of the list carries the same
object identity. -/
theorem pyMem_iff (x : PyObj) (l : List PyObj) :
    pyMem x l = true ↔ ∃ y ∈ l, y.oid = x.oid := by
  simp [pyMem, List.any_eq_true]

/-- The identities surviving `pySet` are pairwise distinct. -/
theorem pySet_oid_pairwise (l : List PyObj) :
    (pySet l).Pairwise fun a b => a.oid ≠ b.oid := by
  induction l with
  | nil => simp [pySet]
  | cons x xs ih =>
    simp only [pySet]
    by_cases hm : pyMem x (pySet xs) = true
    · rw [if_pos hm]; exact ih
    · rw [if_neg hm]
      refine List.Pairwise.cons ?_ ih
      intro y hy he
      exact hm ((pyMem_iff x (pySet xs)).mpr ⟨y, hy, he.symm⟩)

/-- Every object identity occurring in a list survives into `pySet`. -/
theorem mem_pySet_of_mem (l : List PyObj) (a : PyObj) (h : a ∈ l) :
    ∃ b ∈ pySet l, b.oid = a.oid := by
  induction l with
  | nil => cases h
  | cons x xs ih =>
    simp only [pySet]
    rcases List.mem_cons.mp h with rfl | hx
    · by_cases hm : pyMem a (pySet xs) = true
      · rw [if_pos hm]
        exact (pyMem_iff a (pySet xs)).mp hm
      · rw [if_neg hm]
        exact ⟨a, List.mem_cons_self a _, rfl⟩
    · rcases ih hx with ⟨b, hb, he⟩
      by_cases hm : pyMem x (pySet xs) = true
      · rw [if_pos hm]; exact ⟨b, hb, he⟩
      · rw [if_neg hm]; exact ⟨b, List.mem_cons_of_mem x hb, he⟩

/-- The overlap list (deduplicated background products that are `in` the
foreground list) is no longer than the deduplicated foreground list: its
elements have pairwise distinct identities, each of which occurs in the
foreground list and hence in its `pySet`. -/
theorem overlap_le_pySet_length (A B : List PyObj) :
    ((pySet B).filter fun b => pyMem b A).length ≤ (pySet A).length := by
  have hnd : (((pySet B).filter fun b => pyMem b A).map fun p => p.oid).Nodup :=
    List.Pairwise.map _ (fun _ _ hab => hab) ((pySet_oid_pairwise B).filter _)
  have hsub : (((pySet B).filter fun b => pyMem b A).map fun p => p.oid)
      ⊆ (pySet A).map fun p => p.oid := by
    intro k hk
    rcases List.mem_map.mp hk with ⟨b, hb, rfl⟩
    have hbA : pyMem b A = true := (List.mem_filter.mp hb).2
    rcases (pyMem_iff b A).mp hbA with ⟨y, hy, hye⟩
    rcases mem_pySet_of_mem A y hy with ⟨c, hc, hce⟩
    exact List.mem_map.mpr ⟨c, hc, by rw [hce, hye]⟩
  have hle := (hnd.subperm hsub).length_le
  simpa using hle

/-- Claim C9: whenever `score_primer_pair` completes, the overlap count is at
most both the `nseq` and the `offseqs` count. -/
theorem C9_overlap_bound (pp : Primer_pair) (products bg_products : List (Option PyObj))
    (min_length max_length : Int) (r : Primer_pair)
    (h : score_primer_pair pp products bg_products min_length max_length = some r) :
    r.overlap ≤ Nat.min r.nseq r.offseqs := by
  cases hfg : good_products_py min_length max_length products with
  | none =>
    simp only [score_primer_pair, hfg] at h
    exact Option.noConfusion h
  | some gfg =>
    cases hbg : good_bg_products_py max_length bg_products with
    | none =>
      simp only [score_primer_pair, hfg, hbg] at h
      exact Option.noConfusion h
    | some gbg =>
      simp only [score_primer_pair, hfg, hbg, Option.some.injEq] at h
      subst h
      exact Nat.le_min.mpr ⟨overlap_le_pySet_length gfg gbg, List.length_filter_le _ _⟩

/-- Witness for C9 at a concrete scored pair. -/
theorem C9_witness :
    ∃ r, score_primer_pair pp0 [some o1] [] 1 500 = some r
      ∧ r.overlap ≤ Nat.min r.nseq r.offseqs :=
  ⟨_, rfl, C9_overlap_bound pp0 [some o1] [] 1 500 _ rfl⟩

/-- Claim C4: the Ranker keeps exactly the pairs with `nhits > 0` (its output
is a permutation of that filter of its input) and along its output the key
tuple `(nhits, nseq, info, -penalty)` is non-increasing between adjacent
pairs. -/
theorem C4_ranker_filter_sort (primer_pairs : List Primer_pair) :
    (rank_pairs primer_pairs).Perm (primer_pairs.filter fun p => decide (0 < p.nhits))
      ∧ (rank_pairs primer_pairs).Chain' pair_ge :=
  ⟨List.perm_insertionSort pair_ge _,
    List.Pairwise.chain' (List.sorted_insertionSort pair_ge _)⟩

/-- Claim C5: `generate_product` returns "no product" exactly when a hit is
missing for either primer, the two hits share the same strand value, the two
hits lie on different contigs, or the implied product sequence is longer than
10000 bases; in every other case it returns a product. -/
theorem C5_no_product_iff (pp : Primer_pair) (hits : String → Option Primer_hit)
    (genome : String → GenomeRecord) (primer_len : Int) :
    generate_product pp hits genome primer_len = none ↔
      hits pp.left.id = none ∨ hits pp.right.id = none ∨
        ∃ lhit rhit, hits pp.left.id = some lhit ∧ hits pp.right.id = some rhit ∧
          (lhit.strand = rhit.strand ∨ lhit.target ≠ rhit.target ∨
            10000 < (implied_product lhit rhit genome primer_len).seq.length) := by
  unfold generate_product
  cases hL : hits pp.left.id with
  | none => simp
  | some lhit =>
    cases hR : hits pp.right.id with
    | none => simp
    | some rhit =>
      by_cases hs : lhit.strand = rhit.strand
      · simp [hs]
      · by_cases ht : lhit.target = rhit.target
        · by_cases hlen :
              10000 < (implied_product lhit rhit genome primer_len).seq.length
          · simp [hs, ht, hlen]
          · simp [hs, ht, hlen]
        · simp [hs, ht]

/-- Swapping the two hit arguments of the product construction changes
nothing when both hits lie on the same contig. -/
theorem implied_product_swap (a b : Primer_hit) (genome : String → GenomeRecord)
    (primer_len : Int) (ht : a.target = b.target) :
    implied_product a b genome primer_len = implied_product b a genome primer_len := by
  unfold implied_product
  rcases lt_trichotomy a.pos b.pos with hlt | heq | hgt
  · rw [if_pos hlt, if_neg (not_lt.mpr hlt.le), ht]
  · rw [if_neg (not_lt.mpr heq.ge), if_neg (not_lt.mpr heq.le), ht, heq]
  · rw [if_neg (not_lt.mpr hgt.le), if_pos hgt, ht]

/-- Claim C8: the simulated product does not depend on which primer produced
which hit — exchanging the two hits between the left and right primer of a
pair yields the identical result (identical template, sequence, start and
end, and the same "no product" cases). -/
theorem C8_swap_symmetry (pp : Primer_pair) (h h' : String → Option Primer_hit)
    (genome : String → GenomeRecord) (primer_len : Int) (lhit rhit : Primer_hit)
    (e1 : h pp.left.id = some lhit) (e2 : h pp.right.id = some rhit)
    (e3 : h' pp.left.id = some rhit) (e4 : h' pp.right.id = some lhit) :
    generate_product pp h genome primer_len = generate_product pp h' genome primer_len := by
  unfold generate_product
  rw [e1, e2, e3, e4]
  dsimp only
  by_cases hs : lhit.strand = rhit.strand
  · rw [hs]
    simp
  · have hs2 : ¬rhit.strand = lhit.strand := fun e => hs e.symm
    by_cases ht : lhit.target = rhit.target
    · have hswap := implied_product_swap lhit rhit genome primer_len ht
      simp [hs, hs2, ht, hswap]
    · have ht2 : ¬rhit.target = lhit.target := fun e => ht e.symm
      simp [hs, hs2, ht, ht2]

/-- Witness for C8: concrete hits on contig "c1", opposite strands, positions
2 and 5, assigned in both orders. -/
theorem C8_witness : generate_product pp0 hA gW 3 = generate_product pp0 hB gW 3 :=
  C8_swap_symmetry pp0 hA hB gW 3 lhW rhW rfl rfl rfl rfl

/-- Claim C7, counterexample: a run whose single non-`None` foreground
product attempt fails the qualifying length filter (length 2 against
`min_length = 300`) has zero qualifying foreground products across the entire
pair set, yet `generate_products_and_score` does not exit: it returns
normally with an empty ranking, because the early-exit check at line 360
counts non-`None` attempts, not qualifying products. -/
theorem C7_counterexample :
    (([pp0].map fun pp => d_cx pp.pair_id).filterMap id).filter (good_product 300 500) = []
      ∧ ∃ out, generate_products_and_score [pp0] [d_cx] [] 300 500 = Except.ok out
          ∧ out.pairs = [] := by
  exact ⟨by decide, ⟨_, rfl, rfl⟩⟩

/-- Claim C7, amended: when every foreground product attempt returns "no
product" (`None`) across the entire pair set, the run writes the diagnostic
message and exits with status 1 instead of producing a ranking. -/
theorem C7_all_none_exits (primer_pairs : List Primer_pair)
    (fg_genomes bg_genomes : List (String → Option PyObj)) (min_length max_length : Int)
    (h : ∀ d ∈ fg_genomes, ∀ pp ∈ primer_pairs, d pp.pair_id = none) :
    generate_products_and_score primer_pairs fg_genomes bg_genomes min_length max_length
      = Except.error (PyError.exitFailure 1
          "There are no viable foreground PCR products. Quitting.\n") := by
  have hnil : ((fg_genomes.flatMap fun d =>
      primer_pairs.map fun pp => d pp.pair_id).filterMap id) = [] := by
    rw [List.filterMap_eq_nil_iff]
    intro a ha
    rcases List.mem_flatMap.mp ha with ⟨d, hd, ha2⟩
    rcases List.mem_map.mp ha2 with ⟨pp, hpp, rfl⟩
    exact h d hd pp hpp
  simp only [generate_products_and_score, hnil]
  rfl

/-- Witness for the amended C7 at a concrete all-`None` input. -/
theorem C7_witness :
    generate_products_and_score [pp0] [fun _ => none] [] 300 500
      = Except.error (PyError.exitFailure 1
          "There are no viable foreground PCR products. Quitting.\n") :=
  C7_all_none_exits [pp0] [fun _ => none] [] 300 500 (by
    intro d hd pp hpp
    rcases List.mem_singleton.mp hd with rfl
    rfl)

/-- Length of a Python slice whose bounds are in range: `s[a:b]` has length
`b - a` when `0 ≤ a ≤ b ≤ len(s)`. -/
theorem pySlice_length (s : String) (a b : Int) (ha : 0 ≤ a) (hab : a ≤ b)
    (hb : b ≤ (s.length : Int)) : ((pySlice s a b).length : Int) = b - a := by
  simp only [pySlice]
  rw [if_neg (not_lt.mpr ha), if_neg (not_lt.mpr (ha.trans hab)),
    min_eq_left (hab.trans hb), min_eq_left hb]
  show ((((s.data.drop a.toNat).take (b.toNat - a.toNat)).length : ℕ) : Int) = b - a
  rw [List.length_take, List.length_drop]
  have hsd : s.data.length = s.length := rfl
  omega

/-- Claim C10: a returned product starts at the lower of the two hit
positions, ends at the higher position plus the primer length, and — provided
the positions are 1-based, the primer length is non-negative and the higher
position plus the primer length minus one does not exceed the contig length —
its coordinates satisfy `end - start = len(seq)`. -/
theorem C10_product_span (pp : Primer_pair) (hits : String → Option Primer_hit)
    (genome : String → GenomeRecord) (primer_len : Int) (lhit rhit : Primer_hit)
    (product : PCR_Product)
    (e1 : hits pp.left.id = some lhit) (e2 : hits pp.right.id = some rhit)
    (hgen : generate_product pp hits genome primer_len = some product)
    (hpos : 1 ≤ min lhit.pos rhit.pos) (hplen : 0 ≤ primer_len)
    (hbound : max lhit.pos rhit.pos + primer_len - 1 ≤ ((genome lhit.target).seq.length : Int)) :
    product.start = min lhit.pos rhit.pos
      ∧ product.«end» = max lhit.pos rhit.pos + primer_len
      ∧ product.«end» - product.start = (product.seq.length : Int) := by
  unfold generate_product at hgen
  rw [e1, e2] at hgen
  dsimp only at hgen
  by_cases hs : lhit.strand = rhit.strand
  · simp [hs] at hgen
  · rw [if_neg (by simpa using hs)] at hgen
    by_cases ht : lhit.target = rhit.target
    · rw [if_pos (by simpa using ht)] at hgen
      by_cases hlen : 10000 < (implied_product lhit rhit genome primer_len).seq.length
      · rw [if_pos hlen] at hgen
        exact Option.noConfusion hgen
      · rw [if_neg hlen] at hgen
        obtain rfl : implied_product lhit rhit genome primer_len = product :=
          Option.some.inj hgen
        clear hgen hlen
        unfold implied_product
        by_cases hp : lhit.pos < rhit.pos
        · have hmin : min lhit.pos rhit.pos = lhit.pos := min_eq_left hp.le
          have hmax : max lhit.pos rhit.pos = rhit.pos := max_eq_right hp.le
          rw [if_pos hp, hmin, hmax]
          rw [hmax] at hbound
          rw [hmin] at hpos
          have hsl := pySlice_length (genome lhit.target).seq (lhit.pos - 1)
            (rhit.pos + primer_len - 1) (by omega) (by omega) (by omega)
          refine ⟨rfl, rfl, ?_⟩
          show rhit.pos + primer_len - lhit.pos
            = ((pySlice (genome lhit.target).seq (lhit.pos - 1)
                (rhit.pos + primer_len - 1)).length : Int)
          rw [hsl]
          omega
        · have hp2 : rhit.pos ≤ lhit.pos := not_lt.mp hp
          have hmin : min lhit.pos rhit.pos = rhit.pos := min_eq_right hp2
          have hmax : max lhit.pos rhit.pos = lhit.pos := max_eq_left hp2
          rw [if_neg hp, hmin, hmax]
          rw [hmax] at hbound
          rw [hmin] at hpos
          rw [ht] at hbound
          have hsl := pySlice_length (genome rhit.target).seq (rhit.pos - 1)
            (lhit.pos + primer_len - 1) (by omega) (by omega) (by omega)
          refine ⟨rfl, rfl, ?_⟩
          show lhit.pos + primer_len - rhit.pos
            = ((pySlice (genome rhit.target).seq (rhit.pos - 1)
                (lhit.pos + primer_len - 1)).length : Int)
          rw [hsl]
          omega
    · rw [if_neg (by simpa using ht)] at hgen
      exact Option.noConfusion hgen

/-- Witness for C10 at a concrete genome and hit pair. -/
theorem C10_witness :
    generate_product pp0 hA gW 3 = some prodW
      ∧ prodW.start = min lhW.pos rhW.pos
      ∧ prodW.«end» = max lhW.pos rhW.pos + 3
      ∧ prodW.«end» - prodW.start = (prodW.seq.length : Int) :=
  ⟨by decide,
    C10_product_span pp0 hA gW 3 lhW rhW prodW (by decide) (by decide) (by decide)
      (by decide) (by decide) (by decide)⟩
